import Mathlib

/-!
Shallow embedding of the lanyard client library (src/types.ts and src/http.ts):
the response-envelope model (`API.isSuccess`, `API.isErrored`), the payload
data shapes (`Types.Presence` and its sub-records), and the fetch operation
(`get`), together with theorems settling the specification's claims about them.

JavaScript/TypeScript runtime values are modelled as follows: `string` as
`String`, `number` and `bigint` as `Int`, booleans as `Bool`, nullable and
optional fields as `Option`, `Record<string, string>` as an association list,
and `unknown` as a generic JSON value. A JavaScript value that may be
`undefined` at a use site is modelled with `Option`, and a property access
that would throw a `TypeError` at runtime is modelled with `Except`.
-/

/-- A generic JSON/JavaScript value, used for the `unknown`-typed
`collectibles` field of `DiscordUser` (src/types.ts). -/
inductive JSValue where
  | null : JSValue
  | boolean (b : Bool) : JSValue
  | number (n : Int) : JSValue
  | string (s : String) : JSValue
  | array (elems : List JSValue) : JSValue
  | object (fields : List (String × JSValue)) : JSValue

namespace Types

/-- `type Snowflake = ` a decimal string rendering of a bigint (src/types.ts).
No arithmetic is ever performed on it; it is modelled as the string itself. -/
abbrev Snowflake := String

/-- `type DiscordStatus = 'online' | 'idle' | 'dnd' | 'offline'` (src/types.ts). -/
inductive DiscordStatus where
  | online : DiscordStatus
  | idle : DiscordStatus
  | dnd : DiscordStatus
  | offline : DiscordStatus
deriving DecidableEq

/-- `interface Timestamps` (src/types.ts). -/
structure Timestamps where
  start : Int
  «end» : Int
deriving DecidableEq

/-- `interface Spotify` (src/types.ts). -/
structure Spotify where
  track_id : Option String
  timestamps : Timestamps
  song : String
  artist : Option String
  album_art_url : Option String
  album : Option String
deriving DecidableEq

/-- `interface Clan` (src/types.ts). -/
structure Clan where
  tag : String
  identity_guild_id : String
  badge : String
  identity_enabled : Bool
deriving DecidableEq

/-- The inline object type of `DiscordUser.avatar_decoration_data`
(src/types.ts): `{ asset: string; sku_id: bigint }`. -/
structure AvatarDecorationData where
  asset : String
  sku_id : Int
deriving DecidableEq

/-- `interface DiscordUser` (src/types.ts). `display_name` and `clan` are
deprecated in the source but still present; `collectibles?: unknown` is
modelled as an optional generic JSON value. -/
structure DiscordUser where
  username : String
  public_flags : Int
  id : Snowflake
  display_name : Option String
  global_name : Option String
  discriminator : String
  bot : Bool
  avatar_decoration_data : Option AvatarDecorationData
  avatar : Option String
  clan : Option Clan
  primary_guild : Option Clan
  collectibles : Option JSValue

/-- `interface Emoji` (src/types.ts). -/
structure Emoji where
  name : String
  id : Snowflake
  animated : Bool
deriving DecidableEq

/-- `interface Party` (src/types.ts); `size?: [min, max]` is a pair. -/
structure Party where
  size : Option (Int × Int)
  id : String
deriving DecidableEq

/-- `interface Assets` (src/types.ts). -/
structure Assets where
  small_text : Option String
  small_image : Option String
  large_text : Option String
  large_image : Option String
deriving DecidableEq

/-- `interface Activity` (src/types.ts). -/
structure Activity where
  type : Int
  state : String
  name : String
  id : String
  emoji : Option Emoji
  created_at : Int
  timestamps : Option Timestamps
  sync_id : Option String
  session_id : Option String
  party : Option Party
  flags : Option Int
  details : Option String
  assets : Option Assets
  application_id : Option Snowflake
deriving DecidableEq

/-- `interface Presence` (src/types.ts): the domain payload of a successful
response. `kv: Record<string, string>` is modelled as an association list. -/
structure Presence where
  spotify : Option Spotify
  kv : List (String × String)
  listening_to_spotify : Bool
  discord_user : DiscordUser
  discord_status : DiscordStatus
  activities : List Activity
  active_on_discord_web : Bool
  active_on_discord_mobile : Bool
  active_on_discord_desktop : Bool
  active_on_discord_embedded : Bool

end Types

/-- The part of the WHATWG `Response` object that the library reads: only the
`ok` flag (transport-level success indication) is ever consulted
(src/types.ts `isSuccess`, src/http.ts `get`). -/
structure Response where
  ok : Bool
deriving DecidableEq

/-- The part of the WHATWG `Request` object that the library constructs: in
`new Request(url)` (src/http.ts line 14) only the URL is supplied — no
headers, query parameters, or body are attached. -/
structure Request where
  url : String
deriving DecidableEq

namespace API

/-- The `error` body of an `ErroredAPIResponse` (src/types.ts):
`{ message: string; code: string }`. -/
structure APIError where
  message : String
  code : String
deriving DecidableEq

/-- `type EitherAPIResponse<T> = SuccessfulAPIResponse<T> | ErroredAPIResponse`
(src/types.ts): the tagged union of the two response body shapes.
`successfulAPIResponse data` models `{ success: true, data }`;
`erroredAPIResponse error` models `{ success: false, error }`. -/
inductive EitherAPIResponse (T : Type) where
  | successfulAPIResponse (data : T) : EitherAPIResponse T
  | erroredAPIResponse (error : APIError) : EitherAPIResponse T

/-- The `success` boolean tag of a response body: `true` on the success
variant, `false` on the error variant (src/types.ts). -/
def EitherAPIResponse.success {T : Type} : EitherAPIResponse T → Bool
  | .successfulAPIResponse _ => true
  | .erroredAPIResponse _ => false

/-- The JavaScript property access `body.data`: the payload on the success
variant, `undefined` (here `none`) on the error variant. -/
def EitherAPIResponse.dataField {T : Type} : EitherAPIResponse T → Option T
  | .successfulAPIResponse d => some d
  | .erroredAPIResponse _ => none

/-- The JavaScript property access `body.error`: the error body on the error
variant, `undefined` (here `none`) on the success variant. -/
def EitherAPIResponse.errorField {T : Type} : EitherAPIResponse T → Option APIError
  | .successfulAPIResponse _ => none
  | .erroredAPIResponse e => some e

/-- `API.isSuccess(response, body)` (src/types.ts):
`return response.ok && body.success;`. -/
def isSuccess {T : Type} (response : Response) (body : EitherAPIResponse T) : Bool :=
  response.ok && body.success

/-- `API.isErrored(response, body)` (src/types.ts):
`return !isSuccess(response, body);`. -/
def isErrored {T : Type} (response : Response) (body : EitherAPIResponse T) : Bool :=
  !(isSuccess response body)

end API

namespace Routes

/-- `type GetPresence = API.EitherAPIResponse<Types.Presence>` (src/types.ts). -/
abbrev GetPresence := API.EitherAPIResponse Types.Presence

end Routes

/-- A JavaScript runtime `TypeError` raised by a property access on
`undefined`, carrying the name of the property that was read. -/
inductive JSTypeError where
  | undefinedPropertyAccess (prop : String) : JSTypeError
deriving DecidableEq

/-- `class LanyardHTTPError extends Error` (src/http.ts): carries the original
request, the original response, the parsed body as passed to the constructor,
and the inherited `Error.message` set by `super(body.error.message)`. -/
structure LanyardHTTPError (T : Type) where
  request : Request
  response : Response
  body : API.EitherAPIResponse T
  message : String

/-- Running the `LanyardHTTPError` constructor (src/http.ts lines 4-10): it
evaluates `body.error.message` for the `super` call. When `body` is in fact
success-tagged, `body.error` is `undefined` at runtime and reading `.message`
on it throws a `TypeError`, so construction fails. -/
def LanyardHTTPError.construct {T : Type} (request : Request) (response : Response)
    (body : API.EitherAPIResponse T) : Except JSTypeError (LanyardHTTPError T) :=
  match body.errorField with
  | none => .error (.undefinedPropertyAccess "message")
  | some e => .ok ⟨request, response, body, e.message⟩

/-- The behavior of the environment around the single `fetch` call in `get`
(src/http.ts lines 15-17): the network primitive rejects before a response is
produced, or `response.json()` rejects (parse failure), or a response and a
parsed body are produced. `ε` is the type of underlying failure values of the
network/JSON primitives, opaque to this layer. -/
inductive FetchOutcome (ε T : Type) where
  | networkFailure (err : ε) : FetchOutcome ε T
  | jsonFailure (response : Response) (err : ε) : FetchOutcome ε T
  | parsed (response : Response) (body : API.EitherAPIResponse T) : FetchOutcome ε T

/-- The observable result of a call to `get`: it resolves with a value (the
JavaScript `return body.data`, where `none` would be `undefined`), or throws a
`LanyardHTTPError`, or re-raises an underlying environment failure unmodified,
or crashes with a JavaScript runtime `TypeError`. -/
inductive GetResult (ε T : Type) where
  | ok (data : Option T) : GetResult ε T
  | httpError (e : LanyardHTTPError T) : GetResult ε T
  | thrown (err : ε) : GetResult ε T
  | typeError (e : JSTypeError) : GetResult ε T

/-- The request constructed by `get` (src/http.ts line 14):
`new Request(`https://api.lanyard.rest/v1/users/${id}`)`. -/
def builtRequest (id : Types.Snowflake) : Request :=
  ⟨"https://api.lanyard.rest/v1/users/" ++ id⟩

/-- `export async function get(id)` (src/http.ts lines 13-24), as a function of
the identifier and of the environment's behavior for the single fetch:
build the request; a rejection of `fetch` or of `response.json()` propagates
unmodified (there is no try/catch in the source); otherwise discriminate the
parsed body with `API.isSuccess` and either return `body.data` or run
`throw new LanyardHTTPError(request, response, body)`. -/
def get {ε : Type} (id : Types.Snowflake) (outcome : FetchOutcome ε Types.Presence) :
    GetResult ε Types.Presence :=
  let request := builtRequest id
  match outcome with
  | .networkFailure err => .thrown err
  | .jsonFailure _response err => .thrown err
  | .parsed response body =>
    if API.isSuccess response body then
      .ok body.dataField
    else
      match LanyardHTTPError.construct request response body with
      | .ok e => .httpError e
      | .error te => .typeError te

/-- A concrete `Presence` value used to instantiate the theorems below on
closed inputs. -/
def sampleDiscordUser : Types.DiscordUser :=
  ⟨"sample", 0, "123456789012345678", none, none, "0", false, none, none,
    none, none, none⟩

/-- A concrete `Presence` record with an empty activity list. -/
def samplePresence : Types.Presence :=
  ⟨none, [], false, sampleDiscordUser, .online, [], false, false, false, false⟩

/-- C1: for every pair of a transport ok flag and a parsed response body,
`isSuccess` returns true if and only if the ok flag is true and the body's
`success` tag is true; in every other case it returns false. -/
theorem isSuccess_iff_ok_and_tag {T : Type} (response : Response)
    (body : API.EitherAPIResponse T) :
    API.isSuccess response body = true ↔
      (response.ok = true ∧ body.success = true) := by
  simp [API.isSuccess, Bool.and_eq_true]

/-- C2: for every response with `ok = true` whose body is success-tagged,
`get` resolves to exactly the body's nested `data` value, unmodified. -/
theorem get_ok_success_resolves_data {ε : Type} (id : Types.Snowflake)
    (response : Response) (d : Types.Presence) (h : response.ok = true) :
    get id (FetchOutcome.parsed response (API.EitherAPIResponse.successfulAPIResponse d)
        : FetchOutcome ε Types.Presence)
      = GetResult.ok (some d) := by
  obtain ⟨ok⟩ := response
  subst h
  rfl

/-- C2 witness: the theorem applied to a concrete ok response carrying a
concrete presence record. -/
theorem get_ok_success_resolves_data_witness :
    (Response.mk true).ok = true ∧
    get "123456789012345678"
        (FetchOutcome.parsed (Response.mk true)
            (API.EitherAPIResponse.successfulAPIResponse samplePresence)
          : FetchOutcome Unit Types.Presence)
      = GetResult.ok (some samplePresence) :=
  ⟨rfl, get_ok_success_resolves_data "123456789012345678" (Response.mk true)
    samplePresence rfl⟩

/-- C3: for every error-tagged body `{ success: false, error: { message: m,
code: c } }` and every HTTP status (ok or not), `get` raises a
`LanyardHTTPError` whose `message` equals `m`, whose carried body's error
`code` equals `c`, and which carries the original request and response. -/
theorem get_errored_body_raises_structured_error {ε : Type} (id : Types.Snowflake)
    (response : Response) (m c : String) :
    get id (FetchOutcome.parsed response
          (API.EitherAPIResponse.erroredAPIResponse ⟨m, c⟩)
        : FetchOutcome ε Types.Presence)
      = GetResult.httpError
          ⟨builtRequest id, response,
            API.EitherAPIResponse.erroredAPIResponse ⟨m, c⟩, m⟩ := by
  obtain ⟨ok⟩ := response
  cases ok <;> rfl

/-- C4: at the failing input (transport `ok = false`, success-tagged body) the
`LanyardHTTPError` constructor evaluates `body.error.message` with
`body.error` undefined, so `get` crashes with a runtime `TypeError` instead of
raising the structured error the specification describes. -/
theorem get_ok_false_success_body_crashes :
    get "123456789012345678"
        (FetchOutcome.parsed (Response.mk false)
            (API.EitherAPIResponse.successfulAPIResponse samplePresence)
          : FetchOutcome Unit Types.Presence)
      = GetResult.typeError (JSTypeError.undefinedPropertyAccess "message") := rfl

/-- C5: for every pair, `isErrored` is the exact boolean negation of
`isSuccess`: exactly one of the two returns true, never both, never neither. -/
theorem isErrored_negation_of_isSuccess {T : Type} (response : Response)
    (body : API.EitherAPIResponse T) :
    API.isErrored response body = !(API.isSuccess response body) ∧
    (API.isSuccess response body = true ↔ API.isErrored response body = false) := by
  constructor
  · rfl
  · cases h : API.isSuccess response body <;> simp [API.isErrored, h]

/-- C6: the request constructed by `get` targets the fixed base URL with the
identifier as the final path segment, and nothing else; in particular for
`"123456789012345678"` it is exactly
`https://api.lanyard.rest/v1/users/123456789012345678`. -/
theorem builtRequest_url_exact :
    (∀ id : Types.Snowflake,
      (builtRequest id).url = "https://api.lanyard.rest/v1/users/" ++ id) ∧
    (builtRequest "123456789012345678").url
      = "https://api.lanyard.rest/v1/users/123456789012345678" :=
  ⟨fun _ => rfl, rfl⟩

/-- C7: for every transport-level failure value, `get` rejects with that same
underlying failure, unmodified and not wrapped into `LanyardHTTPError`. -/
theorem get_network_failure_propagates {ε : Type} (id : Types.Snowflake) (err : ε) :
    get id (FetchOutcome.networkFailure err) = GetResult.thrown err := rfl

/-- C8: for every JSON parse failure of the response body, `get` propagates
the failure value to the caller unmodified. -/
theorem get_json_failure_propagates {ε : Type} (id : Types.Snowflake)
    (response : Response) (err : ε) :
    get id (FetchOutcome.jsonFailure response err) = GetResult.thrown err := rfl

/-- C9: `isSuccess` and `isErrored` are total (they deliver a boolean on every
input pair, raising nothing) and deterministic: two invocations with equal ok
flag and equal body return equal results. -/
theorem isSuccess_isErrored_deterministic {T : Type} (r₁ r₂ : Response)
    (b₁ b₂ : API.EitherAPIResponse T) (hr : r₁.ok = r₂.ok) (hb : b₁ = b₂) :
    API.isSuccess r₁ b₁ = API.isSuccess r₂ b₂ ∧
    API.isErrored r₁ b₁ = API.isErrored r₂ b₂ ∧
    (API.isSuccess r₁ b₁ = true ∨ API.isSuccess r₁ b₁ = false) := by
  subst hb
  refine ⟨?_, ?_, ?_⟩
  · simp [API.isSuccess, hr]
  · simp [API.isErrored, API.isSuccess, hr]
  · cases API.isSuccess r₁ b₁ <;> simp

/-- C9 witness: the theorem applied at a concrete pair of equal inputs. -/
theorem isSuccess_isErrored_deterministic_witness :
    API.isSuccess (Response.mk true)
        (API.EitherAPIResponse.successfulAPIResponse samplePresence)
      = API.isSuccess (Response.mk true)
        (API.EitherAPIResponse.successfulAPIResponse samplePresence) ∧
    API.isErrored (Response.mk true)
        (API.EitherAPIResponse.successfulAPIResponse samplePresence)
      = API.isErrored (Response.mk true)
        (API.EitherAPIResponse.successfulAPIResponse samplePresence) ∧
    (API.isSuccess (Response.mk true)
        (API.EitherAPIResponse.successfulAPIResponse samplePresence) = true ∨
     API.isSuccess (Response.mk true)
        (API.EitherAPIResponse.successfulAPIResponse samplePresence) = false) :=
  isSuccess_isErrored_deterministic (Response.mk true) (Response.mk true)
    (API.EitherAPIResponse.successfulAPIResponse samplePresence)
    (API.EitherAPIResponse.successfulAPIResponse samplePresence) rfl rfl

/-- C10: there is an input pair (ok flag false, success-tagged body) on which
`isErrored` returns true while the body carries the success tag and has no
`error` field at all; so `isErrored` being true does not imply the body
contains an error `message`/`code`. -/
theorem isErrored_true_on_success_tagged_body :
    API.isErrored (Response.mk false)
        (API.EitherAPIResponse.successfulAPIResponse samplePresence) = true ∧
    (API.EitherAPIResponse.successfulAPIResponse samplePresence).success = true ∧
    (API.EitherAPIResponse.successfulAPIResponse samplePresence
        : API.EitherAPIResponse Types.Presence).errorField = none :=
  ⟨rfl, rfl, rfl⟩
